import Mathlib

/-!
Verification of the obsidian-ai-tools plugin core (`src/main.ts`) against its
natural-language specification.  The plugin state, the client setup routines,
the command callbacks and the settings-change handlers are shallowly embedded
as pure state transformers; the indexing pipeline (whose source file
`generate-embeddings.ts` is not part of the sources at hand) is modelled from
the specification's algorithm.
-/

namespace ObsidianAI

/-- Mirror of the `ObsidianAISettings` interface in `main.ts`. -/
structure ObsidianAISettings where
  supabaseUrl : String
  supabaseKey : String
  openaiKey : String
  indexOnOpen : Bool
  excludedDirs : String
  excludedDirsList : List String
  publicDirs : String
  publicDirsList : List String
  prompt : String
deriving DecidableEq

/-- Mirror of the supabase client object produced by `createClient` in
`setupSupabase` (main.ts, lines 65-74): it captures the url, the key and the
two auth options passed there. -/
structure SupabaseClient where
  url : String
  key : String
  persistSession : Bool
  autoRefreshToken : Bool
deriving DecidableEq

/-- `createClient(url, key, { auth: { persistSession: false, autoRefreshToken: false } })`. -/
def createClient (url key : String) : SupabaseClient :=
  ⟨url, key, false, false⟩

/-- Mirror of the `OpenAIApi` object built from a `Configuration` holding the
api key (`setupOpenai`, main.ts lines 91-94). -/
structure OpenAIApi where
  apiKey : String
deriving DecidableEq

/-- The status-bar strings written by `main.ts`. -/
def missingStatus : String := "❓[AI] Missing API variables"

def readyStatus : String := "✨ [AI] Ready"

def indexingStatus : String := "🔮 [AI] Indexing..."

def loadedStatus : String := "✨ [AI] Loaded"

def errorStatus : String := "😔 [AI] Error"

/-- The observable state of the plugin object: its settings, the settings last
persisted by `saveSettings` (`saveData(this.settings)`), the two nullable
clients, the status-bar text, and the number of `generateEmbeddings` runs
currently in flight (each `.then/.catch` handler not yet fired). -/
structure PluginState where
  settings : ObsidianAISettings
  savedSettings : ObsidianAISettings
  supabaseClient : Option SupabaseClient
  openai : Option OpenAIApi
  statusBar : String
  activeRuns : Nat
deriving DecidableEq

/-- `saveSettings`: `this.saveData(this.settings)`. -/
def saveSettings (s : PluginState) : PluginState :=
  { s with savedSettings := s.settings }

/-- `setupSupabase` (main.ts lines 56-85): reset the client to null, create a
fresh one when both credentials are non-empty, then set the status bar from
the nullness of the two clients. -/
def setupSupabase (s : PluginState) : PluginState :=
  let client : Option SupabaseClient :=
    if s.settings.supabaseUrl = "" ∨ s.settings.supabaseKey = "" then none
    else some (createClient s.settings.supabaseUrl s.settings.supabaseKey)
  { s with
    supabaseClient := client
    statusBar :=
      if client.isSome && s.openai.isSome then readyStatus else missingStatus }

/-- `setupOpenai` (main.ts lines 87-105): reset the client to null, create a
fresh one when the key is non-empty, then set the status bar from the
nullness of the two clients. -/
def setupOpenai (s : PluginState) : PluginState :=
  let client : Option OpenAIApi :=
    if s.settings.openaiKey = "" then none else some ⟨s.settings.openaiKey⟩
  { s with
    openai := client
    statusBar :=
      if s.supabaseClient.isSome && client.isSome then readyStatus else missingStatus }

/-- The guard shared by both commands' `checkCallback`:
`this.supabaseClient !== null && this.openai !== null`. -/
def clientsConfigured (s : PluginState) : Bool :=
  s.supabaseClient.isSome && s.openai.isSome

/-- The `ai-search` command's `checkCallback` (main.ts lines 149-164): it
returns true exactly when both clients are configured and never touches the
status bar. -/
def aiSearchCheck (s : PluginState) : Bool :=
  clientsConfigured s

/-- The `refresh-embedding` command invoked with `checking = false`
(main.ts lines 167-194): when both clients are configured it sets the status
bar to the indexing state and starts a `generateEmbeddings` run, returning
true; otherwise it leaves the state untouched and returns false.  There is no
guard on `activeRuns`. -/
def invokeRefresh (s : PluginState) : PluginState × Bool :=
  if clientsConfigured s then
    ({ s with statusBar := indexingStatus, activeRuns := s.activeRuns + 1 }, true)
  else
    (s, false)

/-- The index-on-open block of `onload` (main.ts lines 120-143): when the
setting is on and both clients are configured it sets the status bar to the
indexing state and starts a run. -/
def indexOnOpenStart (s : PluginState) : PluginState × Bool :=
  if s.settings.indexOnOpen && clientsConfigured s then
    ({ s with statusBar := indexingStatus, activeRuns := s.activeRuns + 1 }, true)
  else
    (s, false)

/-- Outcome of one `generateEmbeddings` promise. -/
inductive RunOutcome where
  | success : RunOutcome
  | failure : RunOutcome
deriving DecidableEq

/-- The `.then`/`.catch` continuation attached to every `generateEmbeddings`
call in `main.ts`: on resolution the status bar becomes the loaded state, on
rejection the error state; either way the run is no longer in flight. -/
def completeRun (s : PluginState) (o : RunOutcome) : PluginState :=
  { s with
    activeRuns := s.activeRuns - 1
    statusBar := match o with
      | RunOutcome.success => loadedStatus
      | RunOutcome.failure => errorStatus }

/-- The setup portion of `onload` (main.ts lines 107-117) starting from loaded
settings: fresh state, then `setupSupabase()` followed by `setupOpenai()`. -/
def onloadSetup (st : ObsidianAISettings) : PluginState :=
  setupOpenai (setupSupabase
    { settings := st
      savedSettings := st
      supabaseClient := none
      openai := none
      statusBar := ""
      activeRuns := 0 })

/-! ### Settings tab handlers (`SettingTab.display`, main.ts lines 359-466) -/

/-- JavaScript `value.split(",")` at the character level: the list of
comma-separated groups; the empty string yields one empty group. -/
def splitOnComma : List Char → List (List Char)
  | [] => [[]]
  | c :: rest =>
    if c = ',' then [] :: splitOnComma rest
    else
      match splitOnComma rest with
      | [] => [[c]]
      | g :: gs => (c :: g) :: gs

/-- JavaScript whitespace as matched by the regex class used by the
`common-tags` transformers and by `String.prototype.trim` (space, tab,
newline, carriage return, vertical tab, form feed; the unicode spaces are not
needed by any claim here). -/
def isJsSpace (c : Char) : Bool :=
  c = ' ' || c = '\t' || c = '\n' || c = '\r' || c = Char.ofNat 11 || c = Char.ofNat 12

/-- Trim of leading and trailing whitespace (JavaScript
`String.prototype.trim`). -/
def trimJs (l : List Char) : List Char :=
  ((l.dropWhile isJsSpace).reverse.dropWhile isJsSpace).reverse

/-- The list stored by the Excluded/Public Directories handlers:
`value.split(",").map((path) => path.trim())`. -/
def parseDirsList (value : String) : List String :=
  (splitOnComma value.data).map (fun g => String.mk (trimJs g))

/-- The Excluded Directories `onChange` handler (main.ts lines 373-379). -/
def onChangeExcludedDirs (s : PluginState) (value : String) : PluginState :=
  saveSettings
    { s with settings :=
        { s.settings with excludedDirs := value, excludedDirsList := parseDirsList value } }

/-- The Public Directories `onChange` handler (main.ts lines 391-397). -/
def onChangePublicDirs (s : PluginState) (value : String) : PluginState :=
  saveSettings
    { s with settings :=
        { s.settings with publicDirs := value, publicDirsList := parseDirsList value } }

/-- The replacement pass of `common-tags`' `oneLine` tag: every maximal match
of the pattern "a newline followed by any whitespace" is replaced by a single
space.  The flag records whether we are inside such a match. -/
def squashNewlineRuns : Bool → List Char → List Char
  | _, [] => []
  | true, c :: rest =>
    if isJsSpace c then squashNewlineRuns true rest
    else c :: squashNewlineRuns false rest
  | false, c :: rest =>
    if c = '\n' then ' ' :: squashNewlineRuns true rest
    else c :: squashNewlineRuns false rest

/-- `oneLine` from the `common-tags` package as used in `main.ts`: replace
every run of a newline plus following whitespace by one space, then trim. -/
def oneLine (s : String) : String :=
  String.mk (trimJs (squashNewlineRuns false s.data))

/-- The Prompt `onChange` handler (main.ts lines 409-412):
`this.plugin.settings.prompt = oneLine`${value}`` followed by `saveSettings`. -/
def onChangePrompt (s : PluginState) (value : String) : PluginState :=
  saveSettings
    { s with settings := { s.settings with prompt := oneLine value } }

/-- Stated from the claim's words, for comparison with `oneLine`: every run of
whitespace collapsed to a single space, then trimmed. -/
def collapseWsRuns : Bool → List Char → List Char
  | _, [] => []
  | true, c :: rest =>
    if isJsSpace c then collapseWsRuns true rest
    else c :: collapseWsRuns false rest
  | false, c :: rest =>
    if isJsSpace c then ' ' :: collapseWsRuns true rest
    else c :: collapseWsRuns false rest

/-- Stated from the claim's words: the normalization the claim ascribes to the
stored prompt (newlines and runs of whitespace collapsed to single spaces,
result trimmed). -/
def claimedPromptNorm (s : String) : String :=
  String.mk (trimJs (collapseWsRuns false s.data))

/-- The Supabase URL `onChange` handler (main.ts lines 436-440): store the
value, persist, re-run `setupSupabase`. -/
def onChangeSupabaseUrl (s : PluginState) (value : String) : PluginState :=
  setupSupabase (saveSettings
    { s with settings := { s.settings with supabaseUrl := value } })

/-- The Supabase Service Role Key `onChange` handler (main.ts lines 449-453). -/
def onChangeSupabaseKey (s : PluginState) (value : String) : PluginState :=
  setupSupabase (saveSettings
    { s with settings := { s.settings with supabaseKey := value } })

/-- The OpenAI API Key `onChange` handler (main.ts lines 460-464): store the
value, persist, re-run `setupOpenai`. -/
def onChangeOpenaiKey (s : PluginState) (value : String) : PluginState :=
  setupOpenai (saveSettings
    { s with settings := { s.settings with openaiKey := value } })

/-! ### The AI search modal (`AISearchModal`, main.ts lines 223-349) -/

/-- The document summary joined onto a search result. -/
structure DocumentRef where
  id : String
  path : String
deriving DecidableEq

/-- Mirror of the `SearchResult` interface in `main.ts`. -/
structure SearchResult where
  id : String
  document_id : String
  content : String
  document : DocumentRef
  similarity : String
deriving DecidableEq

/-- `AISearchModal.getSuggestions` (main.ts lines 319-326) as invoked from the
plugin state that opened the modal: the modal holds the clients captured by
the `ai-search` command, and `semanticSearch` receives exactly the client, the
openai handle and the query — no directory settings.  The `semanticSearch`
implementation itself lives in `semantic-search.ts` and is universally
quantified in the theorems. -/
def modalSuggestions
    (semanticSearch : SupabaseClient → OpenAIApi → String → List SearchResult)
    (s : PluginState) (query : String) : Option (List SearchResult) :=
  match s.supabaseClient, s.openai with
  | some c, some o => some (semanticSearch c o query)
  | _, _ => none

/-- The shift-Enter handler of `AISearchModal.onOpen` (main.ts lines 292-297)
as invoked from the plugin state that opened the modal: `generativeSearch`
receives the client, the openai handle, the input value and the captured
prompt — no directory settings. -/
def modalGenerativeAnswer
    (generativeSearch : SupabaseClient → OpenAIApi → String → String → Option String)
    (s : PluginState) (query : String) : Option (Option String) :=
  match s.supabaseClient, s.openai with
  | some c, some o => some (generativeSearch c o query s.settings.prompt)
  | _, _ => none

/-- The string handed to `Typed` in `AISearchModal.onOpen` (main.ts line 300):
`answer ?? "No answer"`. -/
def displayedAnswer (answer : Option String) : String :=
  answer.getD "No answer"

/-- Modelled from the spec: the answer pipeline of `generativeSearch`
(`semantic-search.ts`, which is not among the sources at hand).  Spec §4.6:
run the search; if no results are retrieved, or the Completion Client fails
(modelled as the completion step yielding nothing), no answer is produced —
the pipeline resolves to null rather than propagating an error. -/
def generativeSearchModel (results : List SearchResult)
    (completion : Option String) : Option String :=
  if results.isEmpty then none else completion

/-- The answer-box text produced by the shift-Enter handler for a given
pipeline outcome: the resolved answer surfaced through
`answer ?? "No answer"`. -/
def answerBoxText (results : List SearchResult) (completion : Option String) : String :=
  displayedAnswer (generativeSearchModel results completion)

/-! ### The indexing pipeline, modelled from the specification -/

/-- A candidate document from the external document source (path and raw
content). -/
structure SourceDoc where
  path : String
  content : String
deriving DecidableEq

/-- A persisted document record in the Vector Store: path, stored content
hash, and the exposable flag derived from `publicDirs`. -/
structure StoredDoc where
  path : String
  contentHash : String
  isPublic : Bool
deriving DecidableEq

/-- The summary returned by a reindex run. -/
structure RunSummary where
  created : Nat
  updated : Nat
  deleted : Nat
  failed : Nat
deriving DecidableEq

/-- Modelled from the spec: the content digest used for change detection
(spec §3, Document `content hash`).  The digest function is not visible in
the sources at hand (`generate-embeddings.ts` is missing); any injective
digest yields the same diff behaviour, so the content itself stands in. -/
def contentDigest (content : String) : String := content

/-- Character-level leading-segment test: `strLeads a b` holds when the char
list `a` is an initial segment of `b`. -/
def strLeads : List Char → List Char → Bool
  | [], _ => true
  | _ :: _, [] => false
  | a :: as, b :: bs => a = b && strLeads as bs

/-- Exclusion by path prefix (spec §4.2 step 1: "excluding any whose path
matches an entry in `excludedPaths` (prefix or exact match)"). -/
def matchesAnyDir (dirs : List String) (p : String) : Bool :=
  dirs.any (fun d => strLeads d.data p.data)

/-- Lookup of the stored record for a path (spec §6: "look up stored
hash/visibility by path"). -/
def lookupStored (store : List StoredDoc) (p : String) : Option StoredDoc :=
  store.find? (fun d => d.path = p)

/-- The store record written for a candidate document during a reindex run:
its path, its content digest, and the exposable flag derived from membership
in `publicPaths` (spec §4.2 step 3). -/
def storedOf (publicPaths : List String) (d : SourceDoc) : StoredDoc :=
  { path := d.path
    contentHash := contentDigest d.content
    isPublic := matchesAnyDir publicPaths d.path }

/-- Modelled from the spec: `generateEmbeddings` lives in
`generate-embeddings.ts`, which is not among the sources at hand; this
follows the algorithm of spec §4.2 (`reindex(excludedPaths, publicPaths)`).
Given the Vector Store state and the candidate corpus it returns the run
summary, the reconciled store, and the number of documents for which
embedding calls were made (new or changed documents; unchanged documents are
skipped with no embedding call). -/
def generateEmbeddings (store : List StoredDoc) (docs : List SourceDoc)
    (excludedPaths publicPaths : List String) :
    RunSummary × List StoredDoc × Nat :=
  let candidates := docs.filter (fun d => !(matchesAnyDir excludedPaths d.path))
  let createdDocs := candidates.filter (fun d => (lookupStored store d.path).isNone)
  let updatedDocs := candidates.filter (fun d =>
    match lookupStored store d.path with
    | some sd => decide (sd.contentHash ≠ contentDigest d.content)
    | none => false)
  let deletedDocs := store.filter (fun sd =>
    !(candidates.any (fun d => d.path = sd.path)))
  let newStore := candidates.map (storedOf publicPaths)
  (⟨createdDocs.length, updatedDocs.length, deletedDocs.length, 0⟩,
    newStore,
    createdDocs.length + updatedDocs.length)

/-! ### Concrete sample states used by witnesses -/

/-- A fully configured settings record. -/
def sampleSettings : ObsidianAISettings :=
  { supabaseUrl := "https://x.supabase.co"
    supabaseKey := "service-role-key"
    openaiKey := "sk-test"
    indexOnOpen := true
    excludedDirs := ""
    excludedDirsList := []
    publicDirs := ""
    publicDirsList := []
    prompt := "You are a helpful assistant." }

/-- A plugin state in which both clients are configured. -/
def sampleConfigured : PluginState :=
  { settings := sampleSettings
    savedSettings := sampleSettings
    supabaseClient := some (createClient "https://x.supabase.co" "service-role-key")
    openai := some ⟨"sk-test"⟩
    statusBar := readyStatus
    activeRuns := 0 }

/-- A settings record with all credentials empty. -/
def emptySettings : ObsidianAISettings :=
  { supabaseUrl := ""
    supabaseKey := ""
    openaiKey := ""
    indexOnOpen := false
    excludedDirs := ""
    excludedDirsList := []
    publicDirs := ""
    publicDirsList := []
    prompt := "" }

/-! ### Theorems -/

/-- Claim C6: after `setupSupabase` the supabase client is non-null exactly when
both the Supabase URL and the Supabase key are non-empty, and after
`setupOpenai` the openai client is non-null exactly when the OpenAI key is
non-empty. -/
theorem setup_client_nonnull_iff (s : PluginState) :
    ((setupSupabase s).supabaseClient ≠ none ↔
      (s.settings.supabaseUrl ≠ "" ∧ s.settings.supabaseKey ≠ "")) ∧
    ((setupOpenai s).openai ≠ none ↔ s.settings.openaiKey ≠ "") := by
  constructor
  · by_cases h1 : s.settings.supabaseUrl = "" <;>
      by_cases h2 : s.settings.supabaseKey = "" <;>
      simp [setupSupabase, h1, h2]
  · by_cases h : s.settings.openaiKey = "" <;> simp [setupOpenai, h]

/-- Claim C1: whenever any of the three credentials is empty, the onload setup
leaves the affected client null, both commands' `checkCallback` guard is
false (so no provider call is attempted: invoking either command leaves the
state untouched), and the status bar reports the missing-variables state set
at setup time. -/
theorem missing_key_disables_features (st : ObsidianAISettings)
    (h : st.supabaseUrl = "" ∨ st.supabaseKey = "" ∨ st.openaiKey = "") :
    (st.supabaseUrl = "" ∨ st.supabaseKey = "" → (onloadSetup st).supabaseClient = none) ∧
    (st.openaiKey = "" → (onloadSetup st).openai = none) ∧
    clientsConfigured (onloadSetup st) = false ∧
    aiSearchCheck (onloadSetup st) = false ∧
    invokeRefresh (onloadSetup st) = (onloadSetup st, false) ∧
    indexOnOpenStart (onloadSetup st) = (onloadSetup st, false) ∧
    (onloadSetup st).statusBar = missingStatus := by
  by_cases h1 : st.supabaseUrl = "" <;>
    by_cases h2 : st.supabaseKey = "" <;>
    by_cases h3 : st.openaiKey = "" <;>
    simp_all [onloadSetup, setupSupabase, setupOpenai, clientsConfigured,
      aiSearchCheck, invokeRefresh, indexOnOpenStart]

/-- Claim C1 witness: the all-empty settings record instantiates the theorem. -/
theorem missing_key_disables_features_w :
    (emptySettings.supabaseUrl = "" ∨ emptySettings.supabaseKey = "" →
      (onloadSetup emptySettings).supabaseClient = none) ∧
    (emptySettings.openaiKey = "" → (onloadSetup emptySettings).openai = none) ∧
    clientsConfigured (onloadSetup emptySettings) = false ∧
    aiSearchCheck (onloadSetup emptySettings) = false ∧
    invokeRefresh (onloadSetup emptySettings) = (onloadSetup emptySettings, false) ∧
    indexOnOpenStart (onloadSetup emptySettings) = (onloadSetup emptySettings, false) ∧
    (onloadSetup emptySettings).statusBar = missingStatus :=
  missing_key_disables_features emptySettings (Or.inl rfl)

/-- Claim C8: each credential `onChange` handler persists the new value and leaves
the stored client reference equal to a freshly constructed client built from
the new settings (or null when a needed credential is empty); the resulting
client value is determined by the new credentials alone, never by the
previously stored client object. -/
theorem credential_change_rebuilds_client (s : PluginState) (v : String) :
    ((onChangeSupabaseUrl s v).savedSettings.supabaseUrl = v ∧
      (onChangeSupabaseUrl s v).supabaseClient =
        (if v = "" ∨ s.settings.supabaseKey = "" then none
         else some (createClient v s.settings.supabaseKey))) ∧
    ((onChangeSupabaseKey s v).savedSettings.supabaseKey = v ∧
      (onChangeSupabaseKey s v).supabaseClient =
        (if s.settings.supabaseUrl = "" ∨ v = "" then none
         else some (createClient s.settings.supabaseUrl v))) ∧
    ((onChangeOpenaiKey s v).savedSettings.openaiKey = v ∧
      (onChangeOpenaiKey s v).openai = (if v = "" then none else some ⟨v⟩)) := by
  refine ⟨⟨rfl, rfl⟩, ⟨rfl, rfl⟩, rfl, rfl⟩

/-- Claim C9: the directory-list handlers store the entered value split on commas
with each entry trimmed; the empty input yields the one-element list
containing the empty string, which as a prefix matches every path. -/
theorem dirs_setting_split_trim (s : PluginState) (v : String) :
    (onChangeExcludedDirs s v).settings.excludedDirsList =
      (splitOnComma v.data).map (fun g => String.mk (trimJs g)) ∧
    (onChangePublicDirs s v).settings.publicDirsList =
      (splitOnComma v.data).map (fun g => String.mk (trimJs g)) ∧
    (onChangeExcludedDirs s v).savedSettings.excludedDirsList =
      (splitOnComma v.data).map (fun g => String.mk (trimJs g)) ∧
    (onChangeExcludedDirs s "").settings.excludedDirsList = [""] ∧
    (onChangePublicDirs s "").settings.publicDirsList = [""] ∧
    matchesAnyDir [""] v = true := by
  refine ⟨rfl, rfl, rfl, ?_, ?_, ?_⟩
  · show parseDirsList "" = [""]
    decide
  · show parseDirsList "" = [""]
    decide
  · simp [matchesAnyDir, strLeads]

/-- Claim C4: whenever the generative pipeline yields no answer — no results were
retrieved or the completion step produced nothing — the string shown in the
answer box is the "No answer" sentinel, not a propagated error. -/
theorem no_answer_sentinel (results : List SearchResult) (completion : Option String)
    (h : results = [] ∨ completion = none) :
    answerBoxText results completion = "No answer" := by
  rcases h with rfl | rfl <;>
    simp [answerBoxText, generativeSearchModel, displayedAnswer]

/-- Claim C4 witness: the empty vector store with a completion available still
surfaces the sentinel. -/
theorem no_answer_sentinel_w :
    answerBoxText [] (some "ignored") = "No answer" :=
  no_answer_sentinel [] (some "ignored") (Or.inl rfl)

/-- Claim C5: neither the suggestion search nor the generative answer consults the
public-directories setting — for any implementation of the search functions
with the call-site signature, two plugin states that differ only in
`publicDirs`/`publicDirsList` produce identical results. -/
theorem search_ignores_publicDirs
    (semanticSearch : SupabaseClient → OpenAIApi → String → List SearchResult)
    (generativeSearch : SupabaseClient → OpenAIApi → String → String → Option String)
    (s : PluginState) (pd : String) (pdl : List String) (q : String) :
    modalSuggestions semanticSearch
        { s with settings := { s.settings with publicDirs := pd, publicDirsList := pdl } } q
      = modalSuggestions semanticSearch s q ∧
    modalGenerativeAnswer generativeSearch
        { s with settings := { s.settings with publicDirs := pd, publicDirsList := pdl } } q
      = modalGenerativeAnswer generativeSearch s q :=
  ⟨rfl, rfl⟩

/-- Claim C7: a reindex invocation (command or index-on-open) first sets the status
bar to the indexing state; when the run completes, the status becomes the
loaded state exactly when it succeeded and the error state exactly when it
rejected. -/
theorem reindex_status_tristate (s : PluginState) (o : RunOutcome)
    (h : clientsConfigured s = true) :
    (invokeRefresh s).1.statusBar = indexingStatus ∧
    (invokeRefresh s).2 = true ∧
    ((completeRun (invokeRefresh s).1 o).statusBar = loadedStatus ↔
      o = RunOutcome.success) ∧
    ((completeRun (invokeRefresh s).1 o).statusBar = errorStatus ↔
      o = RunOutcome.failure) ∧
    (s.settings.indexOnOpen = true →
      (indexOnOpenStart s).1.statusBar = indexingStatus ∧
      ((completeRun (indexOnOpenStart s).1 o).statusBar = loadedStatus ↔
        o = RunOutcome.success) ∧
      ((completeRun (indexOnOpenStart s).1 o).statusBar = errorStatus ↔
        o = RunOutcome.failure)) := by
  cases o <;> refine ⟨?_, ?_, ?_, ?_, fun hio => ⟨?_, ?_, ?_⟩⟩ <;>
    simp_all [invokeRefresh, indexOnOpenStart, completeRun,
      indexingStatus, loadedStatus, errorStatus]

/-- Claim C7 witness: the configured sample state with a successful run. -/
theorem reindex_status_tristate_w :
    (invokeRefresh sampleConfigured).1.statusBar = indexingStatus ∧
    (invokeRefresh sampleConfigured).2 = true ∧
    ((completeRun (invokeRefresh sampleConfigured).1 RunOutcome.success).statusBar =
        loadedStatus ↔ RunOutcome.success = RunOutcome.success) ∧
    ((completeRun (invokeRefresh sampleConfigured).1 RunOutcome.success).statusBar =
        errorStatus ↔ RunOutcome.success = RunOutcome.failure) ∧
    (sampleConfigured.settings.indexOnOpen = true →
      (indexOnOpenStart sampleConfigured).1.statusBar = indexingStatus ∧
      ((completeRun (indexOnOpenStart sampleConfigured).1 RunOutcome.success).statusBar =
          loadedStatus ↔ RunOutcome.success = RunOutcome.success) ∧
      ((completeRun (indexOnOpenStart sampleConfigured).1 RunOutcome.success).statusBar =
          errorStatus ↔ RunOutcome.success = RunOutcome.failure)) :=
  reindex_status_tristate sampleConfigured RunOutcome.success (by decide)

/-- Claim C3 counterexample: with both clients configured, a second
refresh-embedding request issued while a run is in flight is accepted and
starts a second run — two runs are then active concurrently, so the claimed
single-flight discipline fails on the code. -/
theorem no_single_flight_cex :
    (invokeRefresh sampleConfigured).2 = true ∧
    (invokeRefresh sampleConfigured).1.activeRuns = 1 ∧
    (invokeRefresh (invokeRefresh sampleConfigured).1).2 = true ∧
    (invokeRefresh (invokeRefresh sampleConfigured).1).1.activeRuns = 2 := by
  decide

/-- Claim C3 amended: the code has no single-flight guard at all — whenever both
clients are configured, a refresh-embedding request unconditionally starts
another indexing run, regardless of how many runs are already in flight, so
concurrent runs against the same store are possible. -/
theorem refresh_always_starts_run (s : PluginState)
    (h : clientsConfigured s = true) :
    invokeRefresh s =
      ({ s with statusBar := indexingStatus, activeRuns := s.activeRuns + 1 }, true) := by
  simp [invokeRefresh, h]

/-- Claim C3 amended witness: applied to a state that already has one run in
flight, the command starts a second one. -/
theorem refresh_always_starts_run_w :
    invokeRefresh { sampleConfigured with activeRuns := 1 } =
      ({ sampleConfigured with statusBar := indexingStatus, activeRuns := 2 }, true) :=
  refresh_always_starts_run { sampleConfigured with activeRuns := 1 } (by decide)

/-- The `oneLine` replacement pass never emits a newline: in the skipping
state whitespace is dropped, and outside it a newline is replaced by a
space. -/
lemma squashNewlineRuns_no_newline (b : Bool) (l : List Char) :
    '\n' ∉ squashNewlineRuns b l := by
  induction l generalizing b with
  | nil => cases b <;> simp [squashNewlineRuns]
  | cons c rest ih =>
    cases b with
    | true =>
      by_cases hc : isJsSpace c = true
      · simpa [squashNewlineRuns, hc] using ih true
      · have hne : c ≠ '\n' := by
          intro he
          exact hc (by simp [he, isJsSpace])
        simp only [squashNewlineRuns, hc, if_false, Bool.false_eq_true, List.mem_cons,
          not_or]
        exact ⟨fun he => hne he.symm, ih false⟩
    | false =>
      by_cases hc : c = '\n'
      · subst hc
        simpa [squashNewlineRuns] using ih true
      · simp only [squashNewlineRuns, hc, if_false, List.mem_cons, not_or]
        exact ⟨fun he => hc he.symm, ih false⟩

/-- Trimming only removes characters. -/
lemma mem_of_mem_trimJs {x : Char} {l : List Char} (h : x ∈ trimJs l) : x ∈ l := by
  unfold trimJs at h
  rw [List.mem_reverse] at h
  have h1 := (List.dropWhile_sublist isJsSpace).subset h
  rw [List.mem_reverse] at h1
  exact (List.dropWhile_sublist isJsSpace).subset h1

/-- Claim C10 counterexample: on the input "a  b" (two spaces, no newline) the
Prompt handler stores "a  b" unchanged, while the claimed
collapse-all-whitespace-runs normalization would give "a b" — the stored
prompt is not the claimed normalization. -/
theorem prompt_claimed_norm_cex :
    (onChangePrompt sampleConfigured "a  b").savedSettings.prompt = "a  b" ∧
    claimedPromptNorm "a  b" = "a b" ∧
    (onChangePrompt sampleConfigured "a  b").savedSettings.prompt ≠
      claimedPromptNorm "a  b" := by
  decide

/-- Claim C10 amended: the persisted prompt is the `oneLine` normalization of the
input — each run of a newline plus all following whitespace becomes a single
space and the result is trimmed — so the stored prompt never contains a
newline; whitespace runs not introduced by a newline are preserved, not
collapsed. -/
theorem prompt_stored_oneLine (s : PluginState) (v : String) :
    (onChangePrompt s v).savedSettings.prompt = oneLine v ∧
    (onChangePrompt s v).settings.prompt = oneLine v ∧
    ∀ c ∈ (oneLine v).data, c ≠ '\n' := by
  refine ⟨rfl, rfl, fun c hc he => ?_⟩
  subst he
  exact squashNewlineRuns_no_newline false v.data (mem_of_mem_trimJs hc)

/-- In a store that is exactly the image of a duplicate-free candidate list,
looking up any candidate's path finds that candidate's own record. -/
lemma lookupStored_map_storedOf (publicPaths : List String) (l : List SourceDoc)
    (hnd : (l.map SourceDoc.path).Nodup) (d : SourceDoc) (hd : d ∈ l) :
    lookupStored (l.map (storedOf publicPaths)) d.path = some (storedOf publicPaths d) := by
  induction l with
  | nil => cases hd
  | cons a l ih =>
    rw [List.map_cons, List.nodup_cons] at hnd
    rcases List.mem_cons.mp hd with rfl | hd'
    · unfold lookupStored
      rw [List.map_cons, List.find?_cons_of_pos _ (by simp [storedOf])]
    · have hne : ¬ (a.path = d.path) := by
        intro he
        exact hnd.1 (he ▸ List.mem_map_of_mem SourceDoc.path hd')
      unfold lookupStored
      rw [List.map_cons, List.find?_cons_of_neg _ (by simp [storedOf, hne])]
      exact ih hnd.2 hd'

/-- Claim C2: a second reindex run over an unchanged corpus (one document per
distinct path) reports zero created, updated, deleted and failed documents,
makes zero embedding calls, and leaves the store exactly as the first run
left it. -/
theorem reindex_idempotent (store : List StoredDoc) (docs : List SourceDoc)
    (excludedPaths publicPaths : List String)
    (hnd : (docs.map SourceDoc.path).Nodup) :
    (generateEmbeddings (generateEmbeddings store docs excludedPaths publicPaths).2.1
        docs excludedPaths publicPaths).1 = ⟨0, 0, 0, 0⟩ ∧
    (generateEmbeddings (generateEmbeddings store docs excludedPaths publicPaths).2.1
        docs excludedPaths publicPaths).2.2 = 0 ∧
    (generateEmbeddings (generateEmbeddings store docs excludedPaths publicPaths).2.1
        docs excludedPaths publicPaths).2.1 =
      (generateEmbeddings store docs excludedPaths publicPaths).2.1 := by
  have hcnd :
      ((docs.filter (fun d => !(matchesAnyDir excludedPaths d.path))).map
        SourceDoc.path).Nodup :=
    List.Nodup.sublist
      (List.Sublist.map SourceDoc.path (List.filter_sublist docs)) hnd
  have hlook : ∀ d ∈ docs.filter (fun d => !(matchesAnyDir excludedPaths d.path)),
      lookupStored
          ((docs.filter (fun d => !(matchesAnyDir excludedPaths d.path))).map
            (storedOf publicPaths)) d.path
        = some (storedOf publicPaths d) :=
    fun d hd => lookupStored_map_storedOf publicPaths _ hcnd d hd
  have hcreated :
      (docs.filter (fun d => !(matchesAnyDir excludedPaths d.path))).filter
        (fun d =>
          (lookupStored
            ((docs.filter (fun d => !(matchesAnyDir excludedPaths d.path))).map
              (storedOf publicPaths)) d.path).isNone) = [] :=
    List.filter_eq_nil_iff.mpr (fun d hd => by simp [hlook d hd])
  have hupdated :
      (docs.filter (fun d => !(matchesAnyDir excludedPaths d.path))).filter
        (fun d =>
          match lookupStored
            ((docs.filter (fun d => !(matchesAnyDir excludedPaths d.path))).map
              (storedOf publicPaths)) d.path with
          | some sd => decide (sd.contentHash ≠ contentDigest d.content)
          | none => false) = [] :=
    List.filter_eq_nil_iff.mpr (fun d hd => by simp [hlook d hd, storedOf])
  have hdeleted :
      ((docs.filter (fun d => !(matchesAnyDir excludedPaths d.path))).map
        (storedOf publicPaths)).filter
        (fun sd =>
          !((docs.filter (fun d => !(matchesAnyDir excludedPaths d.path))).any
            (fun d => d.path = sd.path))) = [] := by
    refine List.filter_eq_nil_iff.mpr (fun sd hsd => ?_)
    obtain ⟨d, hd, rfl⟩ := List.mem_map.mp hsd
    simp only [Bool.not_eq_true', Bool.not_eq_false]
    exact List.any_eq_true.mpr ⟨d, hd, by simp [storedOf]⟩
  refine ⟨?_, ?_, rfl⟩
  · simp only [generateEmbeddings]
    rw [hcreated, hupdated, hdeleted]
    rfl
  · simp only [generateEmbeddings]
    rw [hcreated, hupdated]
    rfl

/-- Claim C2 witness: a concrete two-document corpus — the second run over the
store produced by the first reports all-zero counts, makes zero embedding
calls and leaves the store unchanged. -/
theorem reindex_idempotent_w :
    (generateEmbeddings
        (generateEmbeddings [] [⟨"a.md", "hello"⟩, ⟨"b.md", "world"⟩] ["x"] ["a"]).2.1
        [⟨"a.md", "hello"⟩, ⟨"b.md", "world"⟩] ["x"] ["a"]).1 = ⟨0, 0, 0, 0⟩ ∧
    (generateEmbeddings
        (generateEmbeddings [] [⟨"a.md", "hello"⟩, ⟨"b.md", "world"⟩] ["x"] ["a"]).2.1
        [⟨"a.md", "hello"⟩, ⟨"b.md", "world"⟩] ["x"] ["a"]).2.2 = 0 ∧
    (generateEmbeddings
        (generateEmbeddings [] [⟨"a.md", "hello"⟩, ⟨"b.md", "world"⟩] ["x"] ["a"]).2.1
        [⟨"a.md", "hello"⟩, ⟨"b.md", "world"⟩] ["x"] ["a"]).2.1 =
      (generateEmbeddings [] [⟨"a.md", "hello"⟩, ⟨"b.md", "world"⟩] ["x"] ["a"]).2.1 :=
  reindex_idempotent [] [⟨"a.md", "hello"⟩, ⟨"b.md", "world"⟩] ["x"] ["a"] (by decide)

end ObsidianAI
